import Mathlib

/-
Shallow embedding of the SeisFlows workflow-execution core.

Sources embedded:
  * src/seisflows3/workflow/base.py      (class Base: main, check_stop_resume_cond,
                                          checkpoint)
  * src/seisflows/workflow/migration.py  (class Migration: main)
  * src/seisflows3/tools/msg.py          (function cli)

Python-level behaviour (exceptions, `sys.exit`, list indexing and slicing,
string truthiness) is modelled explicitly so that the theorems below speak
about what the interpreter actually does on the source as written.
-/

/-- Errors a Python run of the embedded code can surface.  `attributeError a`
models an `AttributeError` for missing attribute `a`; `sysExit c` models
`sys.exit(c)` (`SystemExit`); `stepError s` models an exception raised by the
action of the flow step named `s`. -/
inductive PyError where
  | attributeError (attr : String)
  | indexError
  | sysExit (code : Int)
  | stepError (stepName : String)
deriving DecidableEq, Repr

/-- A flow step: in the source a step is a bound method; observable here are
its `__name__` and whether calling it raises. -/
structure Step where
  name : String
  raises : Bool
deriving DecidableEq, Repr

/-- The ambient user parameters read by the workflow core (`PAR.RESUME_FROM`,
`PAR.STOP_AFTER`); `none` models an unset (None) parameter. -/
structure Params where
  RESUME_FROM : Option String
  STOP_AFTER : Option String
deriving DecidableEq, Repr

/-- Python truthiness of an optional string: `None` and `""` are falsy. -/
def truthy : Option String → Bool
  | none => false
  | some s => !(s == "")

/-- Models the Python expression `_.__name__` where `_` is a `str`: instances
of `str` have no `__name__` attribute, so evaluating it raises
`AttributeError` (base.py lines 176 and 195 run this over `fxnames`, a list
that already holds strings). -/
def strDunderName (_s : String) : Except PyError String :=
  Except.error (PyError.attributeError "__name__")

/-- Python `list.index`: index of the first occurrence, `none` models the
`ValueError` raised when the value is absent. -/
def pyIndex (xs : List String) (v : String) : Option Nat :=
  xs.findIdx? (fun x => x == v)

/-- Python item access `xs[i]` with negative-index wrap-around; `none` models
`IndexError`. -/
def pyGetItem {α : Type} (xs : List α) (i : Int) : Option α :=
  if i < 0 then
    (if i + (xs.length : Int) < 0 then none else xs.get? (i + (xs.length : Int)).toNat)
  else xs.get? i.toNat

/-- Resolution of one bound of a Python slice `xs[a:b]` for a list of length
`len`: negative bounds count from the end, and bounds are clamped to
`[0, len]`. -/
def pySliceBound (len : Nat) (i : Int) : Nat :=
  if i < 0 then
    (if i + (len : Int) < 0 then 0 else (i + (len : Int)).toNat)
  else min i.toNat len

/-- Python slice `xs[a:b]`. -/
def pySlice {α : Type} (xs : List α) (a b : Int) : List α :=
  (xs.take (pySliceBound xs.length b)).drop (pySliceBound xs.length a)

namespace Base

/-- The `PAR.RESUME_FROM` block of `Base.check_stop_resume_cond`
(base.py lines 174-189): inside `try`, evaluate
`[_.__name__ for _ in fxnames].index(PAR.RESUME_FROM)` then
`flow[start_idx].__name__`; `except ValueError` logs and calls
`sys.exit(-1)`; other exceptions propagate. -/
def resumeIdx (par : Params) (flow : List Step) (fxnames : List String) :
    Except PyError Int :=
  if truthy par.RESUME_FROM then
    match fxnames.mapM strDunderName with
    | Except.error e => Except.error e
    | Except.ok names =>
      match pyIndex names (par.RESUME_FROM.getD "") with
      | none => Except.error (PyError.sysExit (-1))
      | some i =>
        match pyGetItem flow (Int.ofNat i) with
        | none => Except.error PyError.indexError
        | some _ => Except.ok (Int.ofNat i)
  else Except.ok 0

/-- The `PAR.STOP_AFTER` block of `Base.check_stop_resume_cond`
(base.py lines 193-209): as `resumeIdx`, but the resolved index is
incremented BEFORE the `flow[stop_idx]` lookup used for logging. -/
def stopIdx (par : Params) (flow : List Step) (fxnames : List String) :
    Except PyError Int :=
  if truthy par.STOP_AFTER then
    match fxnames.mapM strDunderName with
    | Except.error e => Except.error e
    | Except.ok names =>
      match pyIndex names (par.STOP_AFTER.getD "") with
      | none => Except.error (PyError.sysExit (-1))
      | some i =>
        match pyGetItem flow (Int.ofNat (i + 1)) with
        | none => Except.error PyError.indexError
        | some _ => Except.ok (Int.ofNat (i + 1))
  else Except.ok (-1)

/-- `Base.check_stop_resume_cond` (base.py lines 150-211): computes
`fxnames`, defaults `(start_idx, stop_idx) = (0, -1)`, then runs the
RESUME_FROM and STOP_AFTER blocks in order. -/
def check_stop_resume_cond (par : Params) (flow : List Step) :
    Except PyError (Int × Int) :=
  let fxnames := flow.map Step.name
  match resumeIdx par flow fxnames with
  | Except.error e => Except.error e
  | Except.ok s =>
    match stopIdx par flow fxnames with
    | Except.error e => Except.error e
    | Except.ok e => Except.ok (s, e)

end Base

/-- The `for func in flow[start:stop]` loop body of `Base.main`
(base.py lines 134-146): call `func()` (may raise); then, when
`PAR.STOP_AFTER` is truthy, call `self.check_stop_after(func)` - an
attribute `Base` does not define, so an `AttributeError` is raised; the
re-assignment `start, stop = 0, -1` does not affect the iteration in
progress.  Returns the names of the invoked steps together with the loop
outcome. -/
def runLoop (par : Params) : List Step → List String × Except PyError Unit
  | [] => ([], Except.ok ())
  | st :: rest =>
    if st.raises then ([st.name], Except.error (PyError.stepError st.name))
    else if truthy par.STOP_AFTER then
      ([st.name], Except.error (PyError.attributeError "check_stop_after"))
    else
      let (names, r) := runLoop par rest
      (st.name :: names, r)

deriving instance DecidableEq for Except

/-- Result value of `Base.main`: either the flow tuple itself (the
`return_flow` branch) or normal completion with the executed step names. -/
inductive MainOutcome where
  | flowReturned (flow : List Step)
  | completed (executed : List String)
deriving DecidableEq, Repr

/-- Observable behaviour of one `Base.main` call: its result or error,
whether `check_stop_resume_cond` was invoked, which step actions were
invoked, and how many checkpoint saves were written. -/
structure MainRun where
  result : Except PyError MainOutcome
  resolved : Bool
  invoked : List String
  saves : Nat
deriving DecidableEq, Repr

namespace Base

/-- `Base.main` (base.py lines 99-148): if `return_flow`, return the flow at
once; otherwise resolve the cursor with `check_stop_resume_cond` and iterate
`flow[start:stop]`.  The loop body (base.py lines 134-147) contains no call
to `checkpoint()` or `save()`, so `saves` is 0 on every path. -/
def main (par : Params) (flow : List Step) (return_flow : Bool) : MainRun :=
  if return_flow then
    { result := Except.ok (MainOutcome.flowReturned flow), resolved := false,
      invoked := [], saves := 0 }
  else
    match check_stop_resume_cond par flow with
    | Except.error e =>
      { result := Except.error e, resolved := true, invoked := [], saves := 0 }
    | Except.ok (s, e) =>
      let (names, r) := runLoop par (pySlice flow s e)
      { result :=
          match r with
          | Except.error err => Except.error err
          | Except.ok _ => Except.ok (MainOutcome.completed names),
        resolved := true, invoked := names, saves := 0 }

/-- `Base.checkpoint` (base.py lines 213-218): calls `save()`, writing one
record; it receives no step name and records none. -/
def checkpoint (saves : Nat) : Nat := saves + 1

end Base

/-- Modelled from the spec: the outer pass loop of multi-pass (inversion-like)
workflows; the inversion driver itself is not under src/.  Each pass iterates
`flow[start:stop]` exactly as `Base.main` does (base.py line 134), and after a
pass the cursor is reset exactly as base.py line 146 writes it:
`start, stop = 0, -1`.  Returns the executed step names of each pass. -/
def passLoop (par : Params) (flow : List Step) :
    Int → Int → Nat → Except PyError (List (List String))
  | _, _, 0 => Except.ok []
  | s, e, Nat.succ n =>
    let (names, r) := runLoop par (pySlice flow s e)
    match r with
    | Except.error err => Except.error err
    | Except.ok _ =>
      match passLoop par flow 0 (-1) n with
      | Except.error err => Except.error err
      | Except.ok rest => Except.ok (names :: rest)

/-- Modelled from the spec: a multi-pass run whose first pass takes its cursor
from `check_stop_resume_cond` (base.py line 129), later passes from the reset
of base.py line 146 (via `passLoop`). -/
def multiPass (par : Params) (flow : List Step) (npasses : Nat) :
    Except PyError (List (List String)) :=
  match Base.check_stop_resume_cond par flow with
  | Except.error e => Except.error e
  | Except.ok (s, e) => passLoop par flow s e npasses

namespace Migration

/-- The flow tuple built by `Migration.main` (migration.py lines 97-101). -/
def flowSteps : List String :=
  ["evaluate_initial_misfit", "evaluate_gradient", "process_kernels",
   "scale_gradient"]

/-- `Migration.main` (migration.py lines 95-103): builds the flow tuple, then
calls `self.main(flow=flow, return_flow=return_flow)` - which resolves to
`Migration.main` itself, whose body rebuilds the flow and recurses again.
Fuel-indexed: `none` means the recursion bound was exhausted without the call
ever terminating or invoking a step; `some names` would report the executed
step names of a terminating call. -/
def main : Nat → Bool → Option (List String)
  | 0, _ => none
  | Nat.succ n, return_flow =>
    let _flow := flowSteps
    main n return_flow

end Migration

/-- Python string repetition `s * n`. -/
def strRepeat (s : String) : Nat → String
  | 0 => ""
  | Nat.succ n => s ++ strRepeat s n

/-- Python format-spec centering `f"{s:^{width}}"`: pad with spaces to
`width`, the extra space (odd padding) going to the right. -/
def pyCenter (s : String) (width : Nat) : String :=
  if width ≤ s.length then s
  else
    strRepeat " " ((width - s.length) / 2) ++ s
      ++ strRepeat " " (width - s.length - (width - s.length) / 2)

/-- Greedy line packing used by `wrap`: extend the current line with the next
word while it fits in `width`, else start a new line with that word. -/
def greedyLines (width : Nat) (cur : String) : List String → List String
  | [] => [cur]
  | w :: ws =>
    if cur.length + 1 + w.length ≤ width then
      greedyLines width (cur ++ " " ++ w) ws
    else cur :: greedyLines width w ws

/-- Model of the Python standard-library call
`textwrap.wrap(text, width=wraplen, break_long_words=False)` made by
msg.py line 120 (the library itself is not repository code): split the text
on whitespace and greedily pack words into lines of at most `width`
characters, a word longer than `width` getting a line of its own; the empty
text yields no lines. -/
def wrap (text : String) (width : Nat) : List String :=
  match (text.splitOn " ").filter (fun s => !(s == "")) with
  | [] => []
  | w :: ws => greedyLines width w ws

/-- `cli` from src/seisflows3/tools/msg.py lines 71-130, translated
statement by statement: start from `"\n"`, append the top border when
`border is not None`, the centred upper-cased header and its `hchar`
underline when `header is not None`, the wrapped text, the items (Python
`if items:` - false for `None` and for the empty list), the bottom border,
and a final `"\n"`. -/
def cli (text : String) (items : Option (List String)) (wraplen : Nat)
    (header : Option String) (border : Option String) (hchar : String) :
    String :=
  let o1 := "\n"
  let o2 :=
    match border with
    | none => o1
    | some b => o1 ++ strRepeat b wraplen ++ "\n"
  let o3 :=
    match header with
    | none => o2
    | some h =>
      o2 ++ pyCenter h.toUpper wraplen ++ "\n"
        ++ pyCenter (strRepeat hchar h.length) wraplen ++ "\n"
  let o4 := o3 ++ String.intercalate "\n" (wrap text wraplen)
  let o5 :=
    match items with
    | none => o4
    | some xs =>
      if xs.isEmpty then o4
      else o4 ++ "\n\n" ++ String.intercalate "\n" xs
  let o6 :=
    match border with
    | none => o5
    | some b => o5 ++ "\n" ++ strRepeat b wraplen
  o6 ++ "\n"

/-- The body of a `cli` message: header block, wrapped text and items - the
part of the output standing between the enclosing newlines and (when a
border is given) between the two border lines. -/
def cliMiddle (text : String) (items : Option (List String)) (wraplen : Nat)
    (header : Option String) (hchar : String) : String :=
  (match header with
    | none => ""
    | some h =>
      pyCenter h.toUpper wraplen ++ "\n"
        ++ pyCenter (strRepeat hchar h.length) wraplen ++ "\n")
  ++ String.intercalate "\n" (wrap text wraplen)
  ++ (match items with
    | none => ""
    | some xs =>
      if xs.isEmpty then ""
      else "\n\n" ++ String.intercalate "\n" xs)

/-- Enclose a message body in full-width border lines when a border character
is given; leave it bare otherwise. -/
def borderEnclose (wraplen : Nat) (border : Option String) (mid : String) :
    String :=
  match border with
  | none => mid
  | some b => strRepeat b wraplen ++ "\n" ++ mid ++ "\n" ++ strRepeat b wraplen

/- Concrete flows and parameter settings used to evaluate the model. -/

def func1 : Step := { name := "func1", raises := false }

def func2 : Step := { name := "func2", raises := false }

def flowAB : List Step := [func1, func2]

def funcA : Step := { name := "funcA", raises := false }

def funcB : Step := { name := "funcB", raises := false }

def funcC : Step := { name := "funcC", raises := false }

def flowABC : List Step := [funcA, funcB, funcC]

def funcRaising : Step := { name := "funcR", raises := true }

def flowLastRaises : List Step := [funcRaising]

def flowRaiseThenB : List Step := [funcRaising, funcB]

def parUnset : Params := { RESUME_FROM := none, STOP_AFTER := none }

def parResumeFunc1 : Params := { RESUME_FROM := some "func1", STOP_AFTER := none }

def parResumeFunc2 : Params := { RESUME_FROM := some "func2", STOP_AFTER := none }

def parResumeNomatch : Params :=
  { RESUME_FROM := some "nomatch", STOP_AFTER := none }

def parStopFunc1 : Params := { RESUME_FROM := none, STOP_AFTER := some "func1" }

def parStopFuncB : Params := { RESUME_FROM := none, STOP_AFTER := some "funcB" }

/-- C1: with RESUME_FROM and STOP_AFTER both unset, `check_stop_resume_cond`
returns `(0, -1)` on the two-step flow, and `main` then iterates `flow[0:-1]`,
invoking only `func1` and completing without ever running the last step
`func2` - refuting the claim (and the source docstring) that the whole flow,
including the last step, executes. -/
theorem check_stop_resume_default_drops_last_step :
    Base.check_stop_resume_cond parUnset flowAB = Except.ok (0, -1)
    ∧ (Base.main parUnset flowAB false).invoked = ["func1"]
    ∧ (Base.main parUnset flowAB false).result
        = Except.ok (MainOutcome.completed ["func1"]) := by
  decide

/-- C2: on a non-empty flow, cursor resolution with an unknown RESUME_FROM
raises `AttributeError` out of `[_.__name__ for _ in fxnames]` (`fxnames`
already holds strings), never reaching the logged ConfigurationError /
`sys.exit(-1)` path - and a KNOWN step name crashes identically, so the
user-input validation path is unreachable on non-empty flows. -/
theorem unknown_resume_from_raises_attribute_error :
    Base.check_stop_resume_cond parResumeNomatch flowAB
      = Except.error (PyError.attributeError "__name__")
    ∧ Base.check_stop_resume_cond parResumeFunc1 flowAB
      = Except.error (PyError.attributeError "__name__") := by
  decide

/-- C3: resolving the cursor with STOP_AFTER set to the valid step name
"func1" raises `AttributeError` (same `__name__`-of-a-string slip), so the
stop index is never set to position-plus-one and `main` invokes no step at
all. -/
theorem stop_after_valid_name_raises_attribute_error :
    Base.check_stop_resume_cond parStopFunc1 flowAB
      = Except.error (PyError.attributeError "__name__")
    ∧ (Base.main parStopFunc1 flowAB false).invoked = [] := by
  decide

/-- C4: resolving the cursor with RESUME_FROM set to the valid step name
"func2" raises `AttributeError` instead of yielding start index 1, and `main`
invokes no step. -/
theorem resume_from_valid_name_raises_attribute_error :
    Base.check_stop_resume_cond parResumeFunc2 flowAB
      = Except.error (PyError.attributeError "__name__")
    ∧ (Base.main parResumeFunc2 flowAB false).invoked = [] := by
  decide

/-- C5: the scenario flow = [funcA, funcB, funcC] with STOP_AFTER = "funcB"
crashes with `AttributeError` during cursor resolution: no step executes, the
run does not succeed, and no checkpoint is written (the `main` loop contains
no `checkpoint()` call in any case). -/
theorem stop_after_scenario_crashes_without_checkpoint :
    (Base.main parStopFuncB flowABC false).result
      = Except.error (PyError.attributeError "__name__")
    ∧ (Base.main parStopFuncB flowABC false).invoked = []
    ∧ (Base.main parStopFuncB flowABC false).saves = 0 := by
  decide

/-- C6: a raising step that is LAST in the flow is never invoked at all -
`flow[0:-1]` drops it - so `main` completes successfully and no failure is
propagated, refuting the claim for that step; a raising non-last step (second
conjunct pair) does propagate after being invoked exactly once, with no later
step run. -/
theorem raising_last_step_never_invoked_run_succeeds :
    (Base.main parUnset flowLastRaises false).result
      = Except.ok (MainOutcome.completed [])
    ∧ (Base.main parUnset flowLastRaises false).invoked = []
    ∧ (Base.main parUnset flowRaiseThenB false).result
      = Except.error (PyError.stepError "funcR")
    ∧ (Base.main parUnset flowRaiseThenB false).invoked = ["funcR"] := by
  decide

/-- C7: `Migration.main` calls `self.main` - itself - so for every recursion
bound the call (with either value of return_flow) exhausts the bound without
terminating: no executed-step list is ever produced and no step of the
migration flow is ever invoked. -/
theorem migration_main_never_terminates (fuel : Nat) (return_flow : Bool) :
    Migration.main fuel return_flow = none := by
  induction fuel with
  | zero => rfl
  | succ n ih => simpa [Migration.main] using ih

/-- C8: the two-pass run of the two-step flow with RESUME_FROM = "func2" dies
in cursor resolution with `AttributeError` before any pass executes; and even
driving the pass loop with the correctly resolved cursor (1, -1) directly,
pass 1 executes nothing (`flow[1:-1]` is empty) and the reset cursor (0, -1)
of base.py line 146 makes pass 2 execute only func1 - never the claimed
pass 1 = [func2], pass 2 = [func1, func2]. -/
theorem multipass_resume_never_matches_claim :
    multiPass parResumeFunc2 flowAB 2
      = Except.error (PyError.attributeError "__name__")
    ∧ passLoop parUnset flowAB 1 (-1) 2 = Except.ok [[], ["func1"]] := by
  decide

/-- C9: `main` with return_flow = true returns the flow tuple itself and is
otherwise pure: no cursor resolution happens, no step action is invoked, and
no checkpoint record is written. -/
theorem main_return_flow_is_pure (par : Params) (flow : List Step) :
    Base.main par flow true
      = { result := Except.ok (MainOutcome.flowReturned flow),
          resolved := false, invoked := [], saves := 0 } := rfl

/-- C10: every `cli` output is exactly a newline, then the message body -
enclosed between two full-width border lines whenever a border is given -
then a newline; so it begins and ends with a newline, and with a border the
body always sits between `border * wraplen` lines. -/
theorem cli_newline_enclosed_and_bordered (text : String)
    (items : Option (List String)) (wraplen : Nat) (header : Option String)
    (border : Option String) (hchar : String) :
    cli text items wraplen header border hchar
      = "\n" ++ borderEnclose wraplen border
          (cliMiddle text items wraplen header hchar) ++ "\n" := by
  cases border <;> cases header <;> cases items <;>
    try cases ‹List String›
  all_goals
    simp [cli, cliMiddle, borderEnclose, String.append_assoc,
      String.append_empty, String.empty_append]
